import Mathlib

/-
Verification development for the EmergencyConnect dispatch core
(Axshuman/EC_Test).  The definitions below are a shallow embedding of
src/server/routes.ts (the WebSocket fan-out, the HTTP route handlers and
the DatabaseStorage methods bundled in that file) and of the client
reconnect hooks src/client/src/hooks/use-websocket.tsx and
use-websocket-broken.tsx.  Machine numbers that the code treats as JS
numbers are modelled as Nat where only integral values occur, and as
rationals for the reconnect-backoff arithmetic (the 1.1 decay factor).
-/

namespace EmergencyConnect

/-! ## Data model (shared/schema entities, fields used by the core) -/

/-- Row of the emergencyRequests table.  `latitude`/`longitude` are text
columns (the route handler stringifies the incoming numbers), optional
columns are `Option`. -/
structure EmergencyRequest where
  id : Nat
  patientId : Nat
  ambulanceId : Option Nat
  hospitalId : Option Nat
  latitude : String
  longitude : String
  address : Option String
  patientCondition : Option String
  notes : Option String
  priority : String
  status : String
  assignedBedNumber : Option String
  estimatedArrivalMinutes : Option Nat
deriving Repr, DecidableEq

/-- Row of the hospitals table (bed counters and emergency status). -/
structure Hospital where
  id : Nat
  totalBeds : Nat
  availableBeds : Nat
  icuBeds : Nat
  availableIcuBeds : Nat
  emergencyStatus : String
deriving Repr, DecidableEq

/-- Row of the ambulances table (fields the dispatch core reads). -/
structure Ambulance where
  id : Nat
  status : String
  isActive : Bool
deriving Repr, DecidableEq

/-- Row of the communications table. -/
structure Communication where
  id : Nat
  emergencyRequestId : Nat
  senderId : Nat
  receiverId : Nat
  message : String
  messageType : String
  isRead : Bool
deriving Repr, DecidableEq

/-- The persistent store: the tables touched by the dispatch core plus
the id sequences (serial primary keys). -/
structure Storage where
  emergencyRequests : List EmergencyRequest
  hospitals : List Hospital
  ambulances : List Ambulance
  communications : List Communication
  nextRequestId : Nat
  nextCommunicationId : Nat
deriving Repr, DecidableEq

/-! ## The in-memory clients map (routes.ts lines 54-127)

`const clients = new Map<string, WebSocket>()` keyed by the string
`role-userId`.  A string is embedded as its list of characters so that
the `clientId.startsWith(role)` test of `broadcastToRole` can be reasoned
about; a WebSocket handle is a `Channel` with its `readyState === OPEN`
flag. -/

/-- One WebSocket handle: `chanId` distinguishes distinct connections,
`readyStateOpen` mirrors `readyState === WebSocket.OPEN`. -/
structure Channel where
  chanId : Nat
  readyStateOpen : Bool
deriving Repr, DecidableEq

/-- Client identifier string (as a character list): the template literal
used at connection time, `role-userId` (routes.ts line 67). -/
def mkClientId (role : String) (userId : Nat) : List Char :=
  role.data ++ '-' :: (toString userId).data

/-- JS `Map.set`: replaces the value in place when the key already exists
(insertion order is preserved), otherwise appends a fresh entry. -/
def mapSet : List (List Char × Channel) → List Char → Channel →
    List (List Char × Channel)
  | [], k, v => [(k, v)]
  | (k₁, v₁) :: rest, k, v =>
      if k₁ = k then (k, v) :: rest else (k₁, v₁) :: mapSet rest k v

/-- JS `Map.get`. -/
def mapGet : List (List Char × Channel) → List Char → Option Channel
  | [], _ => none
  | (k₁, v₁) :: rest, k => if k₁ = k then some v₁ else mapGet rest k

/-- JS `Map.delete` (used by the close handler, routes.ts line 113). -/
def mapDelete (m : List (List Char × Channel)) (k : List Char) :
    List (List Char × Channel) :=
  m.filter (fun e => !(e.1 == k))

/-- The keys of the clients map are pairwise distinct (a JS `Map` holds at
most one value per key). -/
abbrev NodupKeys (m : List (List Char × Channel)) : Prop :=
  (m.map Prod.fst).Nodup

/-- Number of entries of the clients map carrying a given key. -/
def countKey (m : List (List Char × Channel)) (k : List Char) : Nat :=
  (m.filter (fun e => e.1 == k)).length

/-- Presence-registry register: `clients.set(clientId, ws)`
(routes.ts line 68). -/
def registerClient (clients : List (List Char × Channel)) (role : String)
    (userId : Nat) (ws : Channel) : List (List Char × Channel) :=
  mapSet clients (mkClientId role userId) ws

/-- Presence-registry unregister: `clients.delete(clientId)` in the close
handler (routes.ts lines 112-114). -/
def unregisterClient (clients : List (List Char × Channel)) (role : String)
    (userId : Nat) : List (List Char × Channel) :=
  mapDelete clients (mkClientId role userId)

/-- Presence-registry lookup by identity: `clients.get(role-userId)`
(as done for chat delivery, routes.ts line 98). -/
def findByIdentity (clients : List (List Char × Channel)) (role : String)
    (userId : Nat) : Option Channel :=
  mapGet clients (mkClientId role userId)

/-! ## Frames pushed over the channel -/

/-- JSON frames the server pushes (routes.ts): each carries the payload
the code serialises. -/
inductive Frame where
  | newEmergencyRequest (data : EmergencyRequest)
  | emergencyRequestUpdated (data : Option EmergencyRequest)
  | newMessage (data : Communication)
  | hospitalStatusUpdate (data : Option Hospital)
  | ambulanceLocationUpdate (ambulanceId : Nat) (lat lng : String)
deriving Repr, DecidableEq

/-- `broadcastToRole` (routes.ts lines 121-127): walks the clients map and
sends the frame to every entry whose clientId starts with the role string
and whose socket is open.  The result is the list of (clientId, frame)
pairs actually written to a socket, in map iteration order. -/
def broadcastToRole : List (List Char × Channel) → String → Frame →
    List (List Char × Frame)
  | [], _, _ => []
  | (cid, ch) :: rest, role, f =>
      if role.data.isPrefixOf cid && ch.readyStateOpen then
        (cid, f) :: broadcastToRole rest role f
      else
        broadcastToRole rest role f

/-! ## DatabaseStorage operations (routes.ts, DatabaseStorage class) -/

/-- Insert shape for `createEmergencyRequest` (the values the POST route
passes; serial id and the remaining columns take their defaults). -/
structure InsertEmergencyRequest where
  patientId : Nat
  latitude : String
  longitude : String
  address : Option String
  patientCondition : Option String
  notes : Option String
  priority : String
  status : String
deriving Repr, DecidableEq

/-- `DatabaseStorage.createEmergencyRequest`: INSERT ... RETURNING.  The
serial id comes from the sequence; unset optional columns default to
null. -/
def createEmergencyRequest (st : Storage) (r : InsertEmergencyRequest) :
    EmergencyRequest × Storage :=
  let row : EmergencyRequest :=
    { id := st.nextRequestId
      patientId := r.patientId
      ambulanceId := none
      hospitalId := none
      latitude := r.latitude
      longitude := r.longitude
      address := r.address
      patientCondition := r.patientCondition
      notes := r.notes
      priority := r.priority
      status := r.status
      assignedBedNumber := none
      estimatedArrivalMinutes := none }
  (row, { st with
            emergencyRequests := st.emergencyRequests ++ [row]
            nextRequestId := st.nextRequestId + 1 })

/-- A `Partial<InsertEmergencyRequest>` as the PUT route forwards it:
`some` marks a field present in the request body. -/
structure EmergencyRequestUpdate where
  status : Option String := none
  priority : Option String := none
  ambulanceId : Option Nat := none
  hospitalId : Option Nat := none
  assignedBedNumber : Option String := none
  estimatedArrivalMinutes : Option Nat := none
deriving Repr, DecidableEq

/-- Spread of the partial update over a row (`.set({ ...request })`):
fields absent from the partial keep their stored value. -/
def applyUpdate (r : EmergencyRequest) (u : EmergencyRequestUpdate) :
    EmergencyRequest :=
  { r with
    status := u.status.getD r.status
    priority := u.priority.getD r.priority
    ambulanceId := match u.ambulanceId with
      | some a => some a
      | none => r.ambulanceId
    hospitalId := match u.hospitalId with
      | some h => some h
      | none => r.hospitalId
    assignedBedNumber := match u.assignedBedNumber with
      | some b => some b
      | none => r.assignedBedNumber
    estimatedArrivalMinutes := match u.estimatedArrivalMinutes with
      | some e => some e
      | none => r.estimatedArrivalMinutes }

/-- `DatabaseStorage.updateEmergencyRequest` (routes.ts lines 628-635):
UPDATE ... WHERE id = id RETURNING, with no precondition on the current
status.  Returns `none` when no row matches (the JS value is then
`undefined`). -/
def updateEmergencyRequest (st : Storage) (id : Nat)
    (u : EmergencyRequestUpdate) : Option EmergencyRequest × Storage :=
  match st.emergencyRequests.find? (fun r => r.id == id) with
  | none => (none, st)
  | some r =>
      let r₁ := applyUpdate r u
      (some r₁,
       { st with emergencyRequests :=
           st.emergencyRequests.map (fun q => if q.id == id then r₁ else q) })

/-- Partial hospital update as the update-status route forwards it. -/
structure HospitalUpdate where
  emergencyStatus : Option String := none
  totalBeds : Option Nat := none
  availableBeds : Option Nat := none
  icuBeds : Option Nat := none
  availableIcuBeds : Option Nat := none
deriving Repr, DecidableEq

/-- Spread of a partial hospital update over a row. -/
def applyHospitalUpdate (h : Hospital) (u : HospitalUpdate) : Hospital :=
  { h with
    emergencyStatus := u.emergencyStatus.getD h.emergencyStatus
    totalBeds := u.totalBeds.getD h.totalBeds
    availableBeds := u.availableBeds.getD h.availableBeds
    icuBeds := u.icuBeds.getD h.icuBeds
    availableIcuBeds := u.availableIcuBeds.getD h.availableIcuBeds }

/-- `DatabaseStorage.updateHospital` (routes.ts lines 517-524): UPDATE the
supplied fields in place, no consistency check between the counters. -/
def updateHospital (st : Storage) (id : Nat) (u : HospitalUpdate) :
    Option Hospital × Storage :=
  match st.hospitals.find? (fun h => h.id == id) with
  | none => (none, st)
  | some h =>
      let h₁ := applyHospitalUpdate h u
      (some h₁,
       { st with hospitals :=
           st.hospitals.map (fun q => if q.id == id then h₁ else q) })

/-- Insert shape for `createCommunication` (the values the chat handler
passes; `receiverRole` is used only for the delivery lookup and is not
persisted). -/
structure InsertCommunication where
  emergencyRequestId : Nat
  senderId : Nat
  receiverId : Nat
  message : String
  messageType : String
deriving Repr, DecidableEq

/-- `DatabaseStorage.createCommunication` (routes.ts lines 656-659):
INSERT ... RETURNING; `isRead` defaults to false. -/
def createCommunication (st : Storage) (c : InsertCommunication) :
    Communication × Storage :=
  let row : Communication :=
    { id := st.nextCommunicationId
      emergencyRequestId := c.emergencyRequestId
      senderId := c.senderId
      receiverId := c.receiverId
      message := c.message
      messageType := c.messageType
      isRead := false }
  (row, { st with
            communications := st.communications ++ [row]
            nextCommunicationId := st.nextCommunicationId + 1 })

/-- `DatabaseStorage.getCommunicationsByEmergencyRequest`: SELECT ...
WHERE emergencyRequestId = id ORDER BY createdAt DESC.  Rows are created
in id order with monotone createdAt stamps, so descending createdAt is
the reverse of insertion order. -/
def getCommunicationsByEmergencyRequest (st : Storage)
    (emergencyRequestId : Nat) : List Communication :=
  (st.communications.filter
    (fun c => c.emergencyRequestId == emergencyRequestId)).reverse

/-! ## HTTP route handlers (routes.ts) -/

/-- Result of an HTTP handler: the JSON body answered to the caller, the
frames pushed over sockets while handling, and the store afterwards. -/
structure HandlerResult (α : Type) where
  response : α
  sent : List (List Char × Frame)
  storage : Storage
deriving Repr, DecidableEq

/-- Body of POST /api/emergency/request.  The handler destructures only
latitude, longitude, address, patientCondition and notes; a `priority`
field submitted by the client (as patient dashboards do) is carried here
to record that the handler never reads it.  Coordinates are carried as
their decimal text, since the handler only ever stringifies them. -/
structure CreateRequestBody where
  latitude : String
  longitude : String
  address : Option String
  patientCondition : Option String
  notes : Option String
  priority : Option String
deriving Repr, DecidableEq

/-- POST /api/emergency/request (routes.ts lines 210-235): creates the row
with `priority: 'high'` and `status: 'pending'` hard-coded, then
broadcasts `new_emergency_request` to the ambulance role. -/
def createEmergencyRequestRoute (userId : Nat) (body : CreateRequestBody)
    (clients : List (List Char × Channel)) (st : Storage) :
    HandlerResult EmergencyRequest :=
  let created := createEmergencyRequest st
    { patientId := userId
      latitude := body.latitude
      longitude := body.longitude
      address := body.address
      patientCondition := body.patientCondition
      notes := body.notes
      priority := "high"
      status := "pending" }
  { response := created.1
    sent := broadcastToRole clients "ambulance" (Frame.newEmergencyRequest created.1)
    storage := created.2 }

/-- PUT /api/emergency/request/:id (routes.ts lines 261-283): forwards the
request body verbatim to `updateEmergencyRequest`, then broadcasts
`emergency_request_updated` to the patient role and to the hospital role,
and answers the updated row.  No transition check of any kind occurs. -/
def putEmergencyRequestRoute (id : Nat) (updates : EmergencyRequestUpdate)
    (clients : List (List Char × Channel)) (st : Storage) :
    HandlerResult (Option EmergencyRequest) :=
  let updated := updateEmergencyRequest st id updates
  { response := updated.1
    sent :=
      broadcastToRole clients "patient"
        (Frame.emergencyRequestUpdated updated.1) ++
      broadcastToRole clients "hospital"
        (Frame.emergencyRequestUpdated updated.1)
    storage := updated.2 }

/-- POST /api/hospitals/update-status (routes.ts lines 360-382): stores the
five client-supplied fields verbatim via `updateHospital`, then broadcasts
`hospital_status_update` to the ambulance role. -/
def updateHospitalStatusRoute (hospitalId : Nat) (emergencyStatus : String)
    (totalBeds availableBeds icuBeds availableIcuBeds : Nat)
    (clients : List (List Char × Channel)) (st : Storage) :
    HandlerResult (Option Hospital) :=
  let updated := updateHospital st hospitalId
    { emergencyStatus := some emergencyStatus
      totalBeds := some totalBeds
      availableBeds := some availableBeds
      icuBeds := some icuBeds
      availableIcuBeds := some availableIcuBeds }
  { response := updated.1
    sent := broadcastToRole clients "ambulance"
      (Frame.hospitalStatusUpdate updated.1)
    storage := updated.2 }

/-! ## WebSocket chat relay (routes.ts lines 88-105) -/

/-- Payload of a `chat_message` frame from a client. -/
structure ChatMessageData where
  emergencyRequestId : Nat
  receiverId : Nat
  receiverRole : String
  message : String
deriving Repr, DecidableEq

/-- The `case 'chat_message'` branch: persists the communication via the
store first, then looks the receiver up in the clients map and sends a
`new_message` frame only when that channel exists and is open.  Returns
the store afterwards and the frames written. -/
def chatMessageHandler (senderId : Nat) (d : ChatMessageData)
    (clients : List (List Char × Channel)) (st : Storage) :
    Storage × List (List Char × Frame) :=
  let created := createCommunication st
    { emergencyRequestId := d.emergencyRequestId
      senderId := senderId
      receiverId := d.receiverId
      message := d.message
      messageType := "text" }
  let sent :=
    match mapGet clients (mkClientId d.receiverRole d.receiverId) with
    | some receiverClient =>
        if receiverClient.readyStateOpen then
          [(mkClientId d.receiverRole d.receiverId, Frame.newMessage created.1)]
        else []
    | none => []
  (created.2, sent)

/-! ## Connection Session: reconnect backoff
(use-websocket-broken.tsx) -/

/-- Configured base reconnect interval, ms (line 35). -/
def reconnectInterval : ℚ := 500

/-- Configured cap on the reconnect interval, ms (line 36). -/
def maxReconnectInterval : ℚ := 5000

/-- Configured multiplicative decay factor 1.1 (line 37), exact. -/
def reconnectDecay : ℚ := 11 / 10

/-- Initial value of `currentReconnectIntervalRef` (line 30). -/
def currentReconnectIntervalInitial : ℚ := 1000

/-- The onclose handler (lines 184-209): computes
`nextInterval = min(current * reconnectDecay, maxReconnectInterval)`,
schedules the retry after `nextInterval`, and stores `nextInterval` back
into the ref. -/
def nextIntervalAfterClose (current : ℚ) : ℚ :=
  min (current * reconnectDecay) maxReconnectInterval

/-- Stored reconnect interval after n consecutive close events starting
from a stored value `current`; because onclose both schedules with and
stores `nextInterval`, this is also the delay used for the n-th retry. -/
def storedIntervalAfter (current : ℚ) : Nat → ℚ
  | 0 => current
  | n + 1 => nextIntervalAfterClose (storedIntervalAfter current n)

/-- Delay scheduled for the n-th consecutive retry (n ≥ 1) starting from
stored interval `current`. -/
def nthRetryDelay (current : ℚ) (n : Nat) : ℚ :=
  storedIntervalAfter current n

/-- The onopen handler resets the stored interval to the base
(line 140: `currentReconnectIntervalRef.current = reconnectInterval`). -/
def intervalAfterOpen : ℚ := reconnectInterval

/-! ## Connection Session: offline queue flush
(use-websocket.tsx lines 61-81; processMessageQueue in
use-websocket-broken.tsx lines 71-85 has the same queue semantics) -/

/-- The onopen flush: the queue is copied and cleared, then each message
is attempted in order; a send that throws pushes that message back onto
the (emptied) queue.  Returns (messages written to the socket in order,
queue contents after the flush).  `sendOk m` tells whether the send of
`m` succeeds or throws. -/
def flushQueue (sendOk : α → Bool) : List α → List α × List α
  | [] => ([], [])
  | m :: rest =>
      let r := flushQueue sendOk rest
      if sendOk m then (m :: r.1, r.2) else (r.1, m :: r.2)

/-- `sendMessage` while not open: `messageQueueRef.current.push(message)`
appends at the back of the queue. -/
def queueMessage (q : List α) (m : α) : List α := q ++ [m]

/-! ## Concrete fixtures used to evaluate the handlers -/

/-- A freshly created request as stored by the POST route: status pending,
no ambulance, no ETA. -/
def pendingRequest1 : EmergencyRequest :=
  { id := 1
    patientId := 3
    ambulanceId := none
    hospitalId := none
    latitude := "22.72"
    longitude := "75.86"
    address := none
    patientCondition := some "chest pain"
    notes := none
    priority := "high"
    status := "pending"
    assignedBedNumber := none
    estimatedArrivalMinutes := none }

/-- A hospital with consistent counters (5 of 10 beds free). -/
def hospital1 : Hospital :=
  { id := 1
    totalBeds := 10
    availableBeds := 5
    icuBeds := 4
    availableIcuBeds := 2
    emergencyStatus := "available" }

/-- An available, active ambulance. -/
def ambulanceRow (i : Nat) : Ambulance :=
  { id := i, status := "available", isActive := true }

/-- Store holding the pending request, one hospital and two available
ambulances. -/
def baseStorage : Storage :=
  { emergencyRequests := [pendingRequest1]
    hospitals := [hospital1]
    ambulances := [ambulanceRow 1, ambulanceRow 2]
    communications := []
    nextRequestId := 2
    nextCommunicationId := 1 }

/-- Clients map with one open channel per role: the owning patient (id 3),
one ambulance operator (id 7) and one hospital user (id 2). -/
def baseClients : List (List Char × Channel) :=
  [(mkClientId "patient" 3, ⟨1, true⟩),
   (mkClientId "ambulance" 7, ⟨2, true⟩),
   (mkClientId "hospital" 2, ⟨3, true⟩)]

/-- The accept action of the ambulance dashboard (handleAcceptRequest,
src/unnamed/part_001 lines 49-63): a PUT to /api/emergency/request/:id
with body `{ status: 'dispatched', ambulanceId }` (the source hardcodes
ambulanceId 1 next to a comment that it should be the actual ambulance
id, so the id is a parameter here). -/
def handleAcceptRequest (ambulanceId requestId : Nat)
    (clients : List (List Char × Channel)) (st : Storage) :
    HandlerResult (Option EmergencyRequest) :=
  putEmergencyRequestRoute requestId
    { status := some "dispatched", ambulanceId := some ambulanceId }
    clients st

/-! ## Claim theorems -/

/-- Claim C1 (code evaluated at the failing input): pending → completed is
not an edge of the §4.2 state machine, yet the PUT handler persists the
new status, pushes emergency_request_updated frames, and answers the
updated row instead of a rejection naming the violated rule. -/
theorem update_bypasses_state_machine :
    ((putEmergencyRequestRoute 1 { status := some "completed" }
        baseClients baseStorage).storage.emergencyRequests.find?
        (fun r => r.id == 1)).map EmergencyRequest.status
      = some "completed" ∧
    (putEmergencyRequestRoute 1 { status := some "completed" }
        baseClients baseStorage).sent ≠ [] ∧
    (putEmergencyRequestRoute 1 { status := some "completed" }
        baseClients baseStorage).response ≠ none := by
  decide

/-- Claim C2 (code evaluated at the failing input): two accepts of the
same pending request both succeed; the second silently overwrites the
first ambulance assignment, no caller receives a conflict, and neither
accept flips any ambulance availability flag. -/
theorem double_accept_silent_overwrite :
    (handleAcceptRequest 1 1 baseClients baseStorage).response.isSome
      = true ∧
    (handleAcceptRequest 2 1 baseClients
        (handleAcceptRequest 1 1 baseClients baseStorage).storage
      ).response.isSome = true ∧
    ((handleAcceptRequest 2 1 baseClients
        (handleAcceptRequest 1 1 baseClients baseStorage).storage
      ).storage.emergencyRequests.find? (fun r => r.id == 1)).map
        EmergencyRequest.ambulanceId = some (some 2) ∧
    (handleAcceptRequest 2 1 baseClients
        (handleAcceptRequest 1 1 baseClients baseStorage).storage
      ).storage.ambulances = baseStorage.ambulances ∧
    (∀ a ∈ (handleAcceptRequest 2 1 baseClients
        (handleAcceptRequest 1 1 baseClients baseStorage).storage
      ).storage.ambulances, a.status = "available") := by
  decide

/-- Claim C3 (code evaluated at the failing input): the update-status
route persists client-supplied counters with availableBeds = 20 above
totalBeds = 10, and a completed transition carrying a bed assignment
leaves the hospitals table untouched (availableBeds is not decreased
by 1). -/
theorem bed_invariant_not_enforced :
    (updateHospitalStatusRoute 1 "available" 10 20 4 2 baseClients
        baseStorage).storage.hospitals.find? (fun q => q.id == 1)
      = some { id := 1, totalBeds := 10, availableBeds := 20, icuBeds := 4,
               availableIcuBeds := 2, emergencyStatus := "available" } ∧
    (∀ h ∈ (updateHospitalStatusRoute 1 "available" 10 20 4 2 baseClients
        baseStorage).storage.hospitals,
      ¬ (h.availableBeds ≤ h.totalBeds)) ∧
    (putEmergencyRequestRoute 1
        { status := some "completed", hospitalId := some 1,
          assignedBedNumber := some "PED-08" }
        baseClients baseStorage).storage.hospitals
      = baseStorage.hospitals := by
  decide

/-- Claim C4 (code evaluated at the failing input): the accept action
moves a pending request straight to dispatched with no ETA recorded, and
the dispatched row is broadcast to the owning patient channel while
estimatedArrivalMinutes is still unset. -/
theorem dispatched_without_eta_observable :
    ((handleAcceptRequest 1 1 baseClients baseStorage
      ).storage.emergencyRequests.find? (fun r => r.id == 1)).map
        (fun r => (r.status, r.estimatedArrivalMinutes))
      = some ("dispatched", none) ∧
    (mkClientId "patient" 3,
      Frame.emergencyRequestUpdated
        (handleAcceptRequest 1 1 baseClients baseStorage).response)
      ∈ (handleAcceptRequest 1 1 baseClients baseStorage).sent := by
  decide

/-- Claim C10: the POST route hard-codes priority 'high'; whatever
priority the client submitted (critical, medium, low or none), the
answered and stored request has priority 'high' and is exactly the one
row appended to the store. -/
theorem created_priority_always_high (userId : Nat)
    (body : CreateRequestBody) (clients : List (List Char × Channel))
    (st : Storage) :
    (createEmergencyRequestRoute userId body clients st).response.priority
      = "high" ∧
    (createEmergencyRequestRoute userId body clients st
      ).storage.emergencyRequests
      = st.emergencyRequests ++
        [(createEmergencyRequestRoute userId body clients st).response] := by
  exact ⟨rfl, rfl⟩

/-- Claim C8 counterexample: starting from the 500 ms base, the onclose
handler multiplies before scheduling, so the delay of the 3rd retry is
500 × 1.1³ = 665.5 ms, not min(500 × 1.1², 5000) = 605 ms as the claim
states. -/
theorem backoff_third_delay_counterexample :
    nthRetryDelay reconnectInterval 3 ≠ min (500 * (11 / 10 : ℚ) ^ 2) 5000 := by
  show nextIntervalAfterClose (nextIntervalAfterClose
    (nextIntervalAfterClose reconnectInterval)) ≠ _
  norm_num [nextIntervalAfterClose, reconnectInterval, reconnectDecay,
    maxReconnectInterval]

/-- Claim C8 as amended: the k-th consecutive retry delay starting from
the base is min(500 × 1.1^k, 5000), so the 3rd is 665.5 ms; a successful
connect stores the 500 ms base back into the ref, so the delay after the
next failure is min(500 × 1.1, 5000) = 550 ms. -/
theorem backoff_decay_and_reset :
    nthRetryDelay reconnectInterval 3
      = min (reconnectInterval * reconnectDecay ^ 3) maxReconnectInterval ∧
    nthRetryDelay reconnectInterval 3 = 1331 / 2 ∧
    intervalAfterOpen = reconnectInterval ∧
    nthRetryDelay intervalAfterOpen 1
      = min (reconnectInterval * reconnectDecay) maxReconnectInterval ∧
    nthRetryDelay intervalAfterOpen 1 = 550 := by
  refine ⟨?_, ?_, rfl, ?_, ?_⟩
  · show nextIntervalAfterClose (nextIntervalAfterClose
      (nextIntervalAfterClose reconnectInterval)) = _
    norm_num [nextIntervalAfterClose, reconnectInterval, reconnectDecay,
      maxReconnectInterval]
  · show nextIntervalAfterClose (nextIntervalAfterClose
      (nextIntervalAfterClose reconnectInterval)) = _
    norm_num [nextIntervalAfterClose, reconnectInterval, reconnectDecay,
      maxReconnectInterval]
  · show nextIntervalAfterClose intervalAfterOpen = _
    norm_num [nextIntervalAfterClose, intervalAfterOpen, reconnectInterval,
      reconnectDecay, maxReconnectInterval]
  · show nextIntervalAfterClose intervalAfterOpen = _
    norm_num [nextIntervalAfterClose, intervalAfterOpen, reconnectInterval,
      reconnectDecay, maxReconnectInterval]

/-! ## Helper lemmas: broadcast fan-out, clients map, queue flush -/

/-- The role string "ambulance" is a character-prefix of every ambulance
clientId. -/
lemma ambulanceFanout_ambulance (uid : Nat) :
    "ambulance".data.isPrefixOf (mkClientId "ambulance" uid) = true := rfl

/-- The role string "ambulance" is not a character-prefix of a patient
clientId (first characters differ). -/
lemma ambulanceFanout_patient (uid : Nat) :
    "ambulance".data.isPrefixOf (mkClientId "patient" uid) = false := rfl

/-- The role string "ambulance" is not a character-prefix of a hospital
clientId (first characters differ). -/
lemma ambulanceFanout_hospital (uid : Nat) :
    "ambulance".data.isPrefixOf (mkClientId "hospital" uid) = false := rfl

/-- A clients-map entry whose id passes the startsWith test and whose
socket is open receives the broadcast frame. -/
lemma mem_broadcastToRole {clients : List (List Char × Channel)}
    {role : String} {f : Frame} {cid : List Char} {ch : Channel}
    (hmem : (cid, ch) ∈ clients)
    (hcond : (role.data.isPrefixOf cid && ch.readyStateOpen) = true) :
    (cid, f) ∈ broadcastToRole clients role f := by
  induction clients with
  | nil => simp at hmem
  | cons e rest ih =>
      obtain ⟨cid₁, ch₁⟩ := e
      rcases List.mem_cons.mp hmem with heq | hmem₁
      · cases heq
        simp only [broadcastToRole, hcond, if_true]
        exact List.mem_cons_self _ _
      · simp only [broadcastToRole]
        split
        · exact List.mem_cons_of_mem _ (ih hmem₁)
        · exact ih hmem₁

/-- Everything `broadcastToRole` writes carries the broadcast frame and a
clientId that passes the startsWith test for the role. -/
lemma broadcastToRole_sound {clients : List (List Char × Channel)}
    {role : String} {f : Frame} :
    ∀ p ∈ broadcastToRole clients role f,
      p.2 = f ∧ role.data.isPrefixOf p.1 = true := by
  induction clients with
  | nil => intro p hp; simp [broadcastToRole] at hp
  | cons e rest ih =>
      obtain ⟨cid₁, ch₁⟩ := e
      intro p hp
      simp only [broadcastToRole] at hp
      by_cases hc : (role.data.isPrefixOf cid₁ && ch₁.readyStateOpen) = true
      · rw [if_pos hc] at hp
        rcases List.mem_cons.mp hp with heq | hp₁
        · subst heq
          exact ⟨rfl, (Bool.and_eq_true _ _ |>.mp hc).1⟩
        · exact ih p hp₁
      · rw [if_neg hc] at hp
        exact ih p hp

/-- A `Map.set` makes the key report the new value. -/
lemma mapGet_mapSet_self (m : List (List Char × Channel)) (k : List Char)
    (v : Channel) : mapGet (mapSet m k v) k = some v := by
  induction m with
  | nil => simp [mapSet, mapGet]
  | cons e rest ih =>
      obtain ⟨k₁, v₁⟩ := e
      by_cases h : k₁ = k
      · simp [mapSet, mapGet, h]
      · simp [mapSet, mapGet, h, ih]

/-- Keys after a `Map.set` are the written key or keys already present. -/
lemma mem_keys_mapSet (m : List (List Char × Channel)) (k : List Char)
    (v : Channel) (k₂ : List Char)
    (h : k₂ ∈ (mapSet m k v).map Prod.fst) :
    k₂ = k ∨ k₂ ∈ m.map Prod.fst := by
  induction m with
  | nil =>
      left
      simpa [mapSet] using h
  | cons e rest ih =>
      obtain ⟨k₁, v₁⟩ := e
      by_cases hk : k₁ = k
      · simp only [mapSet, if_pos hk, List.map_cons, List.mem_cons] at h
        rcases h with h | h
        · exact Or.inl h
        · exact Or.inr (List.mem_cons_of_mem _ h)
      · simp only [mapSet, if_neg hk, List.map_cons, List.mem_cons] at h
        rcases h with h | h
        · subst h
          exact Or.inr (by rw [List.map_cons]; exact List.mem_cons_self _ _)
        · rcases ih h with h₁ | h₁
          · exact Or.inl h₁
          · exact Or.inr (List.mem_cons_of_mem _ h₁)

/-- `Map.set` keeps the keys pairwise distinct. -/
lemma nodupKeys_mapSet (m : List (List Char × Channel)) (k : List Char)
    (v : Channel) (h : NodupKeys m) : NodupKeys (mapSet m k v) := by
  induction m with
  | nil =>
      simp only [mapSet, NodupKeys, List.map_cons, List.map_nil]
      exact List.nodup_singleton _
  | cons e rest ih =>
      obtain ⟨k₁, v₁⟩ := e
      simp only [NodupKeys, List.map_cons, List.nodup_cons] at h
      by_cases hk : k₁ = k
      · subst hk
        have hs : mapSet ((k₁, v₁) :: rest) k₁ v = (k₁, v) :: rest := by
          simp [mapSet]
        rw [hs]
        simp only [NodupKeys, List.map_cons, List.nodup_cons]
        exact ⟨h.1, h.2⟩
      · simp only [mapSet, if_neg hk, NodupKeys, List.map_cons,
          List.nodup_cons]
        refine ⟨?_, ih h.2⟩
        intro hmem
        rcases mem_keys_mapSet rest k v k₁ hmem with h₁ | h₁
        · exact hk h₁
        · exact h.1 h₁

/-- Unfolding of `countKey` over a cons cell. -/
lemma countKey_cons (e : List Char × Channel)
    (rest : List (List Char × Channel)) (k : List Char) :
    countKey (e :: rest) k =
      (if (e.1 == k) = true then 1 else 0) + countKey rest k := by
  by_cases hb : (e.1 == k) = true
  · simp [countKey, List.filter_cons, hb, Nat.add_comm]
  · simp [countKey, List.filter_cons, hb]

/-- A key absent from the map has no entries. -/
lemma countKey_eq_zero_of_not_mem (m : List (List Char × Channel))
    (k : List Char) (h : k ∉ m.map Prod.fst) : countKey m k = 0 := by
  induction m with
  | nil => rfl
  | cons e rest ih =>
      simp only [List.map_cons, List.mem_cons] at h
      push_neg at h
      have hb : (e.1 == k) = false := by
        rw [beq_eq_false_iff_ne]
        exact fun hc => h.1 hc.symm
      rw [countKey_cons, hb]
      simp [ih h.2]

/-- With pairwise distinct keys, every key has at most one entry. -/
lemma countKey_le_one (m : List (List Char × Channel)) (k : List Char)
    (h : NodupKeys m) : countKey m k ≤ 1 := by
  induction m with
  | nil => exact Nat.zero_le 1
  | cons e rest ih =>
      simp only [NodupKeys, List.map_cons, List.nodup_cons] at h
      rw [countKey_cons]
      by_cases hk : e.1 = k
      · have h0 : countKey rest k = 0 :=
          countKey_eq_zero_of_not_mem rest k (hk ▸ h.1)
        simp [hk, h0]
      · have hb : (e.1 == k) = false := by
          rw [beq_eq_false_iff_ne]; exact hk
        rw [hb]
        simpa using ih h.2

/-- The flush sends exactly the messages whose send succeeds, in queue
order, and leaves exactly the failed ones in the queue, in queue order. -/
lemma flushQueue_eq_filter {α : Type} (sendOk : α → Bool)
    (queue : List α) :
    flushQueue sendOk queue
      = (queue.filter sendOk, queue.filter (fun m => !(sendOk m))) := by
  induction queue with
  | nil => rfl
  | cons m rest ih =>
      cases h : sendOk m <;> simp [flushQueue, List.filter_cons, h, ih]

/-- Messages queued one by one land behind the existing queue contents. -/
lemma foldl_queueMessage {α : Type} (later : List α) (q : List α) :
    later.foldl queueMessage q = q ++ later := by
  induction later generalizing q with
  | nil => simp
  | cons m rest ih => simp [List.foldl_cons, queueMessage, ih]

/-- Claim C5: a submitted emergency request is stored pending, the
new_emergency_request frame (carrying the created row, hence its id and
priority) reaches every open ambulance-role channel, and no patient or
hospital clientId ever appears among the recipients. -/
theorem new_request_fanout (clients : List (List Char × Channel))
    (userId : Nat) (body : CreateRequestBody) (st : Storage) :
    (createEmergencyRequestRoute userId body clients st).response.status
      = "pending" ∧
    (∀ uid ch, (mkClientId "ambulance" uid, ch) ∈ clients →
      ch.readyStateOpen = true →
      (mkClientId "ambulance" uid,
        Frame.newEmergencyRequest
          (createEmergencyRequestRoute userId body clients st).response)
        ∈ (createEmergencyRequestRoute userId body clients st).sent) ∧
    (∀ p ∈ (createEmergencyRequestRoute userId body clients st).sent,
      p.2 = Frame.newEmergencyRequest
        (createEmergencyRequestRoute userId body clients st).response) ∧
    (∀ uid f,
      (mkClientId "patient" uid, f)
        ∉ (createEmergencyRequestRoute userId body clients st).sent ∧
      (mkClientId "hospital" uid, f)
        ∉ (createEmergencyRequestRoute userId body clients st).sent) := by
  refine ⟨rfl, ?_, ?_, ?_⟩
  · intro uid ch hmem hopen
    exact mem_broadcastToRole hmem
      (by rw [ambulanceFanout_ambulance, hopen]; rfl)
  · intro p hp
    exact (broadcastToRole_sound p hp).1
  · intro uid f
    constructor
    · intro hmem
      have h : "ambulance".data.isPrefixOf (mkClientId "patient" uid)
          = true := (broadcastToRole_sound _ hmem).2
      rw [ambulanceFanout_patient] at h
      exact Bool.false_ne_true h
    · intro hmem
      have h : "ambulance".data.isPrefixOf (mkClientId "hospital" uid)
          = true := (broadcastToRole_sound _ hmem).2
      rw [ambulanceFanout_hospital] at h
      exact Bool.false_ne_true h

/-- Request body of the C5 scenario: priority critical submitted from
coordinates (22.72, 75.86). -/
def criticalBody : CreateRequestBody :=
  { latitude := "22.72", longitude := "75.86", address := none,
    patientCondition := some "cardiac arrest", notes := none,
    priority := some "critical" }

/-- Witness for the C5 theorem: in the concrete registry the open
ambulance channel (id 7) receives the new_emergency_request frame. -/
theorem new_request_fanout_witness :
    (⟨2, true⟩ : Channel).readyStateOpen = true ∧
    (mkClientId "ambulance" 7, (⟨2, true⟩ : Channel)) ∈ baseClients ∧
    (mkClientId "ambulance" 7,
      Frame.newEmergencyRequest
        (createEmergencyRequestRoute 3 criticalBody baseClients
          baseStorage).response)
      ∈ (createEmergencyRequestRoute 3 criticalBody baseClients
          baseStorage).sent :=
  ⟨rfl, by decide,
    (new_request_fanout baseClients 3 criticalBody baseStorage).2.1 7
      ⟨2, true⟩ (by decide) rfl⟩

/-- Claim C6: registering a second channel for the same (role, userId)
replaces the prior mapping: the lookup afterwards answers only the second
channel, the map keys stay pairwise distinct, and every identity holds at
most one entry. -/
theorem register_replaces_not_stacks (clients : List (List Char × Channel))
    (role : String) (userId : Nat) (ch₁ ch₂ : Channel)
    (h : NodupKeys clients) :
    findByIdentity
        (registerClient (registerClient clients role userId ch₁)
          role userId ch₂) role userId = some ch₂ ∧
    NodupKeys
        (registerClient (registerClient clients role userId ch₁)
          role userId ch₂) ∧
    ∀ k, countKey
        (registerClient (registerClient clients role userId ch₁)
          role userId ch₂) k ≤ 1 := by
  have h₁ := nodupKeys_mapSet clients (mkClientId role userId) ch₁ h
  have h₂ := nodupKeys_mapSet _ (mkClientId role userId) ch₂ h₁
  exact ⟨mapGet_mapSet_self _ _ _, h₂, fun k => countKey_le_one _ k h₂⟩

/-- Witness for the C6 theorem: registering patient 1 twice over the
concrete registry leaves only the second channel retrievable. -/
theorem register_replaces_witness :
    NodupKeys baseClients ∧
    findByIdentity
        (registerClient (registerClient baseClients "patient" 1 ⟨10, true⟩)
          "patient" 1 ⟨11, true⟩) "patient" 1 = some ⟨11, true⟩ := by
  have hnd : NodupKeys baseClients := by decide
  exact ⟨hnd,
    (register_replaces_not_stacks baseClients "patient" 1 ⟨10, true⟩
      ⟨11, true⟩ hnd).1⟩

/-- Claim C7: a chat message whose receiver is absent from the clients map
is still persisted (a subsequent fetch of the communications of the
request returns it) while no frame at all is written at send time. -/
theorem chat_persist_offline (clients : List (List Char × Channel))
    (st : Storage) (senderId : Nat) (d : ChatMessageData)
    (habsent : mapGet clients (mkClientId d.receiverRole d.receiverId)
      = none) :
    (∃ c ∈ getCommunicationsByEmergencyRequest
        (chatMessageHandler senderId d clients st).1 d.emergencyRequestId,
      c.message = d.message ∧ c.senderId = senderId ∧
      c.receiverId = d.receiverId) ∧
    (chatMessageHandler senderId d clients st).2 = [] := by
  constructor
  · refine ⟨{ id := st.nextCommunicationId,
              emergencyRequestId := d.emergencyRequestId,
              senderId := senderId, receiverId := d.receiverId,
              message := d.message, messageType := "text",
              isRead := false }, ?_, rfl, rfl, rfl⟩
    simp only [chatMessageHandler, createCommunication,
      getCommunicationsByEmergencyRequest, List.mem_reverse,
      List.mem_filter]
    refine ⟨List.mem_append_right _ ?_, by simp⟩
    exact List.mem_singleton.mpr rfl
  · simp [chatMessageHandler, habsent]

/-- Chat payload whose receiver (hospital 2) is offline. -/
def offlineChat : ChatMessageData :=
  { emergencyRequestId := 1, receiverId := 2, receiverRole := "hospital",
    message := "ETA 8 minutes" }

/-- Witness for the C7 theorem: with an empty clients map the send writes
no frame while the message is persisted. -/
theorem chat_persist_offline_witness :
    mapGet [] (mkClientId offlineChat.receiverRole offlineChat.receiverId)
      = none ∧
    (chatMessageHandler 7 offlineChat [] baseStorage).2 = [] :=
  ⟨rfl, (chat_persist_offline [] baseStorage 7 offlineChat rfl).2⟩

/-- Claim C9: the flush on a successful connect sends the queued messages
in FIFO order (the successes, in queue order), keeps exactly the failed
ones in the queue in their original order, and everything queued later
lands behind them, so a failed message is never discarded and never moved
behind later-queued messages. -/
theorem flush_fifo_and_requeue {α : Type} (sendOk : α → Bool)
    (queue later : List α) :
    (flushQueue sendOk queue).1 = queue.filter sendOk ∧
    (flushQueue sendOk queue).2 = queue.filter (fun m => !(sendOk m)) ∧
    later.foldl queueMessage (flushQueue sendOk queue).2
      = queue.filter (fun m => !(sendOk m)) ++ later := by
  rw [flushQueue_eq_filter]
  exact ⟨rfl, rfl, foldl_queueMessage later _⟩

end EmergencyConnect
